import Mathlib

/-!
Verification of the sjsneakerz spreadsheet-automation scripts.

The repository is a set of Python scripts that configure a Google Sheets
workbook for a clothing-resale business.  This development embeds, as
executable Lean definitions, the spreadsheet formulas the scripts install
(Item ID, Status, and the Shipping Dashboard QUERY/VLOOKUP join), the
sequences of Google API calls each script issues, the Purchases-to-Inventory
row migration, the confirmation gating of the destructive scripts, the
try/except error handling of each main function, and the spreadsheet-ID
extraction from a pasted URL.  Theorems about these definitions settle the
specification claims.
-/

namespace SJSneakerz

/-! ## Spreadsheet formula semantics

`create_resale_sheet.py` writes into Inventory!A2 the formula

  =IF(AND(C2<>"", D2<>"", E2<>"", F2<>""),
      CONCATENATE(C2,"-",D2,"-",E2,"-",F2,"-",ROW()), "")

and into Inventory!I2 (J2 in `migrate_to_consolidated.py`) the formula

  =IF(A2="", "", IF(COUNTIF(Sales!$A:$A, A2) > 0, "Sold", "In Stock"))

In both scripts the Inventory layout has C = Category, D = Brand, E = Size,
F = Color.  The functions below give the value semantics of those formulas
on a row whose cells C..F hold the given strings and whose row number is
`row`; COUNTIF is exact-match counting over the Sales column A values. -/

/-- Value of the Item ID formula installed in Inventory!A2, as a function of
the row's Category (C), Brand (D), Size (E), Color (F) cells and the row
number supplied by ROW(). -/
def itemIdFormula (c2 d2 e2 f2 : String) (row : Nat) : String :=
  if c2 ≠ "" ∧ d2 ≠ "" ∧ e2 ≠ "" ∧ f2 ≠ "" then
    c2 ++ "-" ++ d2 ++ "-" ++ e2 ++ "-" ++ f2 ++ "-" ++ toString row
  else ""

/-- The Item ID computed by the Apps Script that `create_inventory_form.py`
prints: `category + "-" + brand + "-" + size + "-" + color + "-" + lastRow`. -/
def appsScriptItemId (category brand size color : String) (lastRow : Nat) : String :=
  category ++ "-" ++ brand ++ "-" ++ size ++ "-" ++ color ++ "-" ++ toString lastRow

/-- COUNTIF(range, value) with exact-match criteria: the number of cells in
the column equal to the value. -/
def countIf (col : List String) (v : String) : Nat :=
  (col.filter (fun x => x == v)).length

/-- Value of the Status formula installed in Inventory!I2 (resp. J2), as a
function of the row's Item ID cell (A) and the list of values in column A of
the Sales tab. -/
def statusFormula (a2 : String) (salesColA : List String) : String :=
  if a2 = "" then ""
  else if countIf salesColA a2 > 0 then "Sold" else "In Stock"

/-! ## Shipping Dashboard join

The dashboard formula is

  =QUERY(ARRAYFORMULA(IF(Sales!A2:A<>"",
     [Sales!A, VLOOKUP(..,Inventory,3), VLOOKUP(..,4), VLOOKUP(..,5),
      VLOOKUP(..,6), Sales!E, Sales!F, Sales!B, Sales!G, Sales!H], )),
    "WHERE Col1 IS NOT NULL")

Rows are lists of cell strings; a missing cell reads as "".  VLOOKUP with
`FALSE` finds the first table row whose first column equals the key and
returns its `col`-th (1-based) cell; IFERROR maps a failed lookup to "". -/

/-- IFERROR(VLOOKUP(key, table, col, FALSE), ""): first row of `table` whose
column A equals `key`, projected to 1-based column `col`; "" if none. -/
def iferrorVlookup (key : String) (table : List (List String)) (col : Nat) : String :=
  match table.find? (fun r => r.getD 0 "" == key) with
  | some r => r.getD (col - 1) ""
  | none => ""

/-- One Shipping Dashboard row produced for a Sales row: the sale's Item ID,
the Category/Brand/Size/Color looked up from Inventory columns 3..6, then
the sale's Buyer (E), Platform (F), Sale Price (B), Shipping Status (G) and
Tracking Number (H). -/
def dashboardRow (inventory : List (List String)) (sale : List String) : List String :=
  [sale.getD 0 "",
   iferrorVlookup (sale.getD 0 "") inventory 3,
   iferrorVlookup (sale.getD 0 "") inventory 4,
   iferrorVlookup (sale.getD 0 "") inventory 5,
   iferrorVlookup (sale.getD 0 "") inventory 6,
   sale.getD 4 "", sale.getD 5 "", sale.getD 1 "", sale.getD 6 "", sale.getD 7 ""]

/-- The rows the dashboard formula materialises: one `dashboardRow` for every
Sales row whose Item ID cell is non-empty, in Sales order. -/
def shippingDashboardRows (inventory sales : List (List String)) : List (List String) :=
  (sales.filter (fun r => r.getD 0 "" != "")).map (dashboardRow inventory)

/-! ## Header layouts written by the scripts -/

/-- Inventory!A1:K1 headers written by `create_resale_sheet.py`. -/
def inventoryHeaders : List String :=
  ["Item ID", "UPC", "Category", "Brand", "Size", "Color",
   "Cost", "Date Purchased", "Status", "Location", "Notes"]

/-- Sales!A1:I1 headers written by `create_resale_sheet.py`. -/
def salesHeaders : List String :=
  ["Item ID", "Sale Price", "Date Sold", "Sold By", "Buyer",
   "Platform", "Shipping Status", "Tracking Number", "Notes"]

/-- Shipping Dashboard!A1:J1 headers written by `create_resale_sheet.py`. -/
def dashboardHeaders : List String :=
  ["Item ID", "Category", "Brand", "Size", "Color", "Buyer",
   "Platform", "Sale Price", "Shipping Status", "Tracking Number"]

/-- Inventory!A1:L1 headers written by `migrate_to_consolidated.py` (the
12-column layout that still carries a Condition column). -/
def migrateInventoryHeaders : List String :=
  ["Item ID", "UPC", "Category", "Brand", "Size", "Color",
   "Cost", "Date Purchased", "Condition", "Status", "Location", "Notes"]

/-! ## Formula texts installed by the scripts -/

/-- Text of the Item ID formula written to Inventory!A2 (identical in
`create_resale_sheet.py` and `migrate_to_consolidated.py`). -/
def itemIdFormulaText : String :=
  "=IF(AND(C2<>\"\", D2<>\"\", E2<>\"\", F2<>\"\"), CONCATENATE(C2,\"-\",D2,\"-\",E2,\"-\",F2,\"-\",ROW()), \"\")"

/-- Text of the Status formula written to Inventory!I2 by
`create_resale_sheet.py` and to Inventory!J2 by `migrate_to_consolidated.py`
(the same string in both files). -/
def statusFormulaText : String :=
  "=IF(A2=\"\", \"\", IF(COUNTIF(Sales!$A:$A, A2) > 0, \"Sold\", \"In Stock\"))"

/-- Text of the Shipping Dashboard QUERY formula over Inventory!A:K, written
by `create_resale_sheet.py` and `remove_condition_column.py`. -/
def queryFormulaTextAK : String :=
  "=QUERY(\n  ARRAYFORMULA(\n    IF(Sales!A2:A<>\"\",\n      \x7b\n        Sales!A2:A,\n        IFERROR(VLOOKUP(Sales!A2:A, Inventory!A:K, 3, FALSE), \"\"),\n        IFERROR(VLOOKUP(Sales!A2:A, Inventory!A:K, 4, FALSE), \"\"),\n        IFERROR(VLOOKUP(Sales!A2:A, Inventory!A:K, 5, FALSE), \"\"),\n        IFERROR(VLOOKUP(Sales!A2:A, Inventory!A:K, 6, FALSE), \"\"),\n        Sales!E2:E,\n        Sales!F2:F,\n        Sales!B2:B,\n        Sales!G2:G,\n        Sales!H2:H\n      \x7d,\n    )\n  ),\n  \"WHERE Col1 IS NOT NULL\"\n)"

/-- Text of the Shipping Dashboard QUERY formula over Inventory!A:L, written
by `migrate_to_consolidated.py`. -/
def queryFormulaTextAL : String :=
  "=QUERY(\n  ARRAYFORMULA(\n    IF(Sales!A2:A<>\"\",\n      \x7b\n        Sales!A2:A,\n        IFERROR(VLOOKUP(Sales!A2:A, Inventory!A:L, 3, FALSE), \"\"),\n        IFERROR(VLOOKUP(Sales!A2:A, Inventory!A:L, 4, FALSE), \"\"),\n        IFERROR(VLOOKUP(Sales!A2:A, Inventory!A:L, 5, FALSE), \"\"),\n        IFERROR(VLOOKUP(Sales!A2:A, Inventory!A:L, 6, FALSE), \"\"),\n        Sales!E2:E,\n        Sales!F2:F,\n        Sales!B2:B,\n        Sales!G2:G,\n        Sales!H2:H\n      \x7d,\n    )\n  ),\n  \"WHERE Col1 IS NOT NULL\"\n)"

/-! ## Google Sheets API requests and calls

Each script issues a linear sequence of Google API calls.  `SheetsRequest`
covers the request kinds the scripts put inside `batchUpdate` bodies (plus
`addProtectedRange`, the request kind that would protect a tab, which is
part of the API surface and is needed to state read-only claims).  Sheets
are identified by title, standing in for the runtime sheet ids that
`get_sheet_ids` resolves. -/

inductive SheetsRequest where
  | setDataValidation (sheet : String) (rowStart rowEnd colStart colEnd : Nat)
      (conditionType : String) (values : List String)
  | repeatCellHeaderFormat (sheet : String)
  | addConditionalFormatRule (sheet : String) (formula : String)
  | updateDimensionProperties (sheet : String) (colStart colEnd pixelSize : Nat)
  | addFilterView (title : String) (colStart colEnd : Nat)
      (criteria : Option (Nat × List String))
  | deleteFilterView (filterId : Nat)
  | deleteDimension (sheet : String) (colStart colEnd : Nat)
  | deleteSheet (sheet : String)
  | addProtectedRange (sheet : String)
  deriving DecidableEq

inductive ApiCall where
  | spreadsheetsCreate (title : String) (sheetTitles : List String)
  | spreadsheetsGet
  | valuesGet (range : String)
  | valuesUpdate (range valueInputOption : String) (values : List (List String))
  | batchUpdate (requests : List SheetsRequest)
  | formsCreate (title : String)
  | formsBatchUpdate (itemTitles : List String)
  deriving DecidableEq

/-- An observable effect of running a script: a console print or an API call. -/
inductive Step where
  | print (msg : String)
  | api (call : ApiCall)
  deriving DecidableEq

/-- The API calls among a list of steps, in order. -/
def apiCallsOf (steps : List Step) : List ApiCall :=
  steps.filterMap (fun s => match s with | .api c => some c | .print _ => none)

/-- Whether an API call carries an `addProtectedRange` request (the only way
a script could make a tab read-only). -/
def addsProtection (c : ApiCall) : Bool :=
  match c with
  | .batchUpdate reqs =>
      reqs.any (fun r => match r with | .addProtectedRange _ => true | _ => false)
  | _ => false

/-- The Status-column index a filter-view request's criteria target, if any. -/
def filterCriteriaCol (r : SheetsRequest) : Option Nat :=
  match r with
  | .addFilterView _ _ _ (some (c, _)) => some c
  | _ => none

/-! ## create_resale_sheet.py -/

/-- The data-validation requests `apply_data_validations` batches. -/
def createResaleValidationRequests : List SheetsRequest :=
  [.setDataValidation "Inventory" 1 1000 4 5 "ONE_OF_LIST" ["XS", "S", "M", "L", "XL", "XXL"],
   .setDataValidation "Inventory" 1 1000 9 10 "ONE_OF_LIST" ["Zach\x27s garage", "Adi\x27s garage"],
   .setDataValidation "Sales" 1 1000 0 1 "ONE_OF_RANGE" ["=Inventory!$A$2:$A$1000"],
   .setDataValidation "Sales" 1 1000 3 4 "ONE_OF_LIST" ["Zach", "Adi"],
   .setDataValidation "Sales" 1 1000 5 6 "ONE_OF_LIST" ["Depop", "eBay", "local"],
   .setDataValidation "Sales" 1 1000 6 7 "ONE_OF_LIST"
     ["needs to ship", "shipped", "delivered", "local pickup (no shipping)"]]

/-- The formatting requests `apply_formatting` batches: header format and
alternating-row rule per sheet (dict insertion order: Inventory, Sales,
Shipping Dashboard), then the column-width updates. -/
def createResaleFormattingRequests : List SheetsRequest :=
  [.repeatCellHeaderFormat "Inventory", .addConditionalFormatRule "Inventory" "=ISEVEN(ROW())",
   .repeatCellHeaderFormat "Sales", .addConditionalFormatRule "Sales" "=ISEVEN(ROW())",
   .repeatCellHeaderFormat "Shipping Dashboard",
   .addConditionalFormatRule "Shipping Dashboard" "=ISEVEN(ROW())",
   .updateDimensionProperties "Inventory" 0 1 150,
   .updateDimensionProperties "Inventory" 1 2 120,
   .updateDimensionProperties "Inventory" 2 7 100,
   .updateDimensionProperties "Inventory" 7 8 120,
   .updateDimensionProperties "Inventory" 8 9 100,
   .updateDimensionProperties "Inventory" 9 10 150,
   .updateDimensionProperties "Inventory" 10 11 200,
   .updateDimensionProperties "Sales" 0 1 150,
   .updateDimensionProperties "Sales" 1 3 100,
   .updateDimensionProperties "Sales" 3 7 120,
   .updateDimensionProperties "Sales" 7 8 150,
   .updateDimensionProperties "Sales" 8 9 200,
   .updateDimensionProperties "Shipping Dashboard" 0 1 150,
   .updateDimensionProperties "Shipping Dashboard" 1 8 100,
   .updateDimensionProperties "Shipping Dashboard" 8 9 130,
   .updateDimensionProperties "Shipping Dashboard" 9 10 150]

/-- The three filter views `create_inventory_filters` adds on Inventory
(Status lives in column I, index 8, of its 11-column layout). -/
def createResaleFilterViews : List SheetsRequest :=
  [.addFilterView "In Stock" 0 11 (some (8, ["Sold"])),
   .addFilterView "Sold" 0 11 (some (8, ["In Stock"])),
   .addFilterView "All Statuses" 0 11 none]

/-- The Outstanding Shipments filter view `create_shipping_filter` adds. -/
def createResaleShippingFilterView : SheetsRequest :=
  .addFilterView "Outstanding Shipments" 0 10
    (some (8, ["delivered", "local pickup (no shipping)"]))

/-- The full API call sequence of `create_resale_sheet.py`'s main try block. -/
def createResaleSheetCalls : List ApiCall :=
  [.spreadsheetsCreate "Clothing Resale Business" ["Inventory", "Sales", "Shipping Dashboard"],
   .spreadsheetsGet,
   .valuesUpdate "Inventory!A1:K1" "RAW" [inventoryHeaders],
   .valuesUpdate "Inventory!A2" "USER_ENTERED" [[itemIdFormulaText]],
   .valuesUpdate "Inventory!I2" "USER_ENTERED" [[statusFormulaText]],
   .valuesUpdate "Sales!A1:I1" "RAW" [salesHeaders],
   .valuesUpdate "Shipping Dashboard!A1:J1" "RAW" [dashboardHeaders],
   .valuesUpdate "Shipping Dashboard!A2" "USER_ENTERED" [[queryFormulaTextAK]],
   .batchUpdate createResaleValidationRequests,
   .batchUpdate createResaleFormattingRequests,
   .batchUpdate createResaleFilterViews,
   .batchUpdate [createResaleShippingFilterView]]

/-- Steps of `create_resale_sheet.py`'s main try block (milestone prints with
the API calls in program order). -/
def createResaleSheetSteps : List Step :=
  [.print "Authenticating with Google Sheets API...",
   .print "Creating spreadsheet...",
   .api (.spreadsheetsCreate "Clothing Resale Business" ["Inventory", "Sales", "Shipping Dashboard"]),
   .api .spreadsheetsGet,
   .print "Configuring tabs...",
   .api (.valuesUpdate "Inventory!A1:K1" "RAW" [inventoryHeaders]),
   .api (.valuesUpdate "Inventory!A2" "USER_ENTERED" [[itemIdFormulaText]]),
   .api (.valuesUpdate "Inventory!I2" "USER_ENTERED" [[statusFormulaText]]),
   .print "Inventory tab configured",
   .api (.valuesUpdate "Sales!A1:I1" "RAW" [salesHeaders]),
   .print "Sales tab configured",
   .api (.valuesUpdate "Shipping Dashboard!A1:J1" "RAW" [dashboardHeaders]),
   .api (.valuesUpdate "Shipping Dashboard!A2" "USER_ENTERED" [[queryFormulaTextAK]]),
   .print "Shipping Dashboard configured",
   .api (.batchUpdate createResaleValidationRequests),
   .print "Data validations applied",
   .api (.batchUpdate createResaleFormattingRequests),
   .print "Formatting applied",
   .api (.batchUpdate createResaleFilterViews),
   .print "Inventory filters created (In Stock, Sold, All Statuses)",
   .api (.batchUpdate [createResaleShippingFilterView]),
   .print "Shipping filter created (Outstanding Shipments)",
   .print "SUCCESS! Your spreadsheet is ready!"]

/-! ## migrate_to_consolidated.py -/

/-- The row transformation of `migrate_spreadsheet`: pad the Purchases row to
at least 10 cells with "", keep cells 1..9, insert empty Status and Location,
and append the old cell 10 as Notes. -/
def migrateRow (row : List String) : List String :=
  let padded := row ++ List.replicate (10 - row.length) ""
  padded.take 9 ++ ["", "", if padded.length > 9 then padded.getD 9 "" else ""]

/-- The data-validation requests step 6 of the migration batches. -/
def migrateValidationRequests : List SheetsRequest :=
  [.setDataValidation "Inventory" 1 1000 4 5 "ONE_OF_LIST" ["XS", "S", "M", "L", "XL", "XXL"],
   .setDataValidation "Inventory" 1 1000 8 9 "ONE_OF_LIST" ["New", "Like New", "Good", "Fair"],
   .setDataValidation "Inventory" 1 1000 10 11 "ONE_OF_LIST" ["Zach\x27s garage", "Adi\x27s garage"]]

/-- The API calls `migrate_spreadsheet` issues, given whether the spreadsheet
has Purchases and Inventory tabs and the data rows read from Purchases!A2:J1000
(an early return follows the initial metadata get when either tab is missing;
the data write is skipped when Purchases has no data rows). -/
def migrateSpreadsheetCalls (hasPurchases hasInventory : Bool)
    (purchasesRows : List (List String)) : List ApiCall :=
  [.spreadsheetsGet] ++
  if !hasPurchases then [] else
  if !hasInventory then [] else
  [ApiCall.valuesGet "Purchases!A2:J1000",
   .valuesUpdate "Inventory!A1:L1" "RAW" [migrateInventoryHeaders]] ++
  (if purchasesRows.isEmpty then [] else
    [ApiCall.valuesUpdate "Inventory!A2" "RAW" (purchasesRows.map migrateRow)]) ++
  [ApiCall.valuesUpdate "Inventory!A2" "USER_ENTERED" [[itemIdFormulaText]],
   .valuesUpdate "Inventory!J2" "USER_ENTERED" [[statusFormulaText]],
   .valuesUpdate "Shipping Dashboard!A2" "USER_ENTERED" [[queryFormulaTextAL]],
   .batchUpdate migrateValidationRequests,
   .batchUpdate [.deleteSheet "Purchases"]]

/-- Python's `str.strip()`: drop whitespace from both ends. -/
def stripChars (xs : List Char) : List Char :=
  ((xs.dropWhile Char.isWhitespace).reverse.dropWhile Char.isWhitespace).reverse

/-- Python's `str.lower()` on the ASCII answers at issue. -/
def lowerChars (xs : List Char) : List Char :=
  xs.map Char.toLower

/-- Whether a confirmation answer passes the scripts' check
`input(...).strip().lower() in ["yes", "y"]`. -/
def confirmAccepted (answer : String) : Bool :=
  lowerChars (stripChars answer.toList) == "yes".toList ||
  lowerChars (stripChars answer.toList) == "y".toList

/-- Steps of `migrate_to_consolidated.py`'s main after the confirmation
prompt: on any answer other than yes/y it prints a cancellation message and
returns; otherwise it authenticates and runs the migration call sequence. -/
def migrateMainSteps (answer : String) (hasPurchases hasInventory : Bool)
    (purchasesRows : List (List String)) : List Step :=
  if confirmAccepted answer then
    [Step.print "Authenticating...", .print "Starting migration..."] ++
    (migrateSpreadsheetCalls hasPurchases hasInventory purchasesRows).map Step.api
  else [Step.print "Migration cancelled."]

/-! ## add_inventory_filters.py -/

/-- The three filter views `add_inventory_filters` adds; its criteria target
column index 7 of the Inventory tab. -/
def addInventoryFiltersViews : List SheetsRequest :=
  [.addFilterView "In Stock" 0 9 (some (7, ["Sold"])),
   .addFilterView "Sold" 0 9 (some (7, ["In Stock"])),
   .addFilterView "All Statuses" 0 9 none]

/-- The API calls of `add_inventory_filters.py`'s try block (after the
metadata get it returns early when the Inventory tab is missing). -/
def addInventoryFiltersCalls (hasInventory : Bool) : List ApiCall :=
  [.spreadsheetsGet] ++
  if hasInventory then [ApiCall.batchUpdate addInventoryFiltersViews] else []

/-! ## add_item_id_dropdown.py -/

/-- The API calls of `add_item_id_dropdown.py`'s try block. -/
def addItemIdDropdownCalls (hasSales hasInventory : Bool) : List ApiCall :=
  [.spreadsheetsGet] ++
  if hasSales && hasInventory then
    [ApiCall.batchUpdate
      [.setDataValidation "Sales" 1 1000 0 1 "ONE_OF_RANGE" ["=Inventory!$A$2:$A$1000"]]]
  else []

/-! ## remove_condition_column.py -/

/-- The three filter views `remove_condition_column` recreates after deleting
the Condition column; Status has moved to column I, index 8. -/
def removeConditionFilterViews : List SheetsRequest :=
  [.addFilterView "In Stock" 0 11 (some (8, ["Sold"])),
   .addFilterView "Sold" 0 11 (some (8, ["In Stock"])),
   .addFilterView "All Statuses" 0 11 none]

/-- The API calls `remove_condition_column` issues, given whether Inventory
exists and the filter-view ids of any existing In Stock / Sold / All Statuses
views (deleted in one batch when present). -/
def removeConditionCalls (hasInventory : Bool) (oldFilterIds : List Nat) : List ApiCall :=
  [.spreadsheetsGet] ++
  if !hasInventory then [] else
  [ApiCall.batchUpdate [.deleteDimension "Inventory" 8 9],
   .valuesUpdate "Shipping Dashboard!A2" "USER_ENTERED" [[queryFormulaTextAK]],
   .spreadsheetsGet] ++
  (if oldFilterIds.isEmpty then [] else
    [ApiCall.batchUpdate (oldFilterIds.map SheetsRequest.deleteFilterView)]) ++
  [ApiCall.batchUpdate removeConditionFilterViews]

/-- Steps of `remove_condition_column.py`'s main after the confirmation
prompt, mirroring `migrateMainSteps`. -/
def removeConditionMainSteps (answer : String) (hasInventory : Bool)
    (oldFilterIds : List Nat) : List Step :=
  if confirmAccepted answer then
    [Step.print "Authenticating..."] ++
    (removeConditionCalls hasInventory oldFilterIds).map Step.api
  else [Step.print "Cancelled."]

/-! ## create_inventory_form.py -/

/-- The API calls of `create_inventory_form.py`'s try block: create the form,
then one batch adding the description update and the nine question items. -/
def createInventoryFormCalls : List ApiCall :=
  [.formsCreate "Add Inventory Item",
   .formsBatchUpdate
     ["UPC", "Category", "Brand", "Size", "Color", "Cost",
      "Date Purchased", "Location", "Notes"]]

/-! ## add_essentials_hoodie.py -/

/-- The hard-coded item the script describes. -/
def essentialsHoodieItem : List (String × String) :=
  [("Item ID", "ESS-HOODIE-XL-OATMEAL-001"), ("UPC", "460035734583"),
   ("Category", "Hoodie"), ("Brand", "Essentials"), ("Size", "XL"),
   ("Color", "Light Oatmeal"), ("Cost", "65.00"), ("Date Purchased", ""),
   ("Status", "In Stock"), ("Location", "Inventory"),
   ("Notes", "Added via script for barcode scanning")]

/-- Steps of `add_essentials_hoodie.py`'s main: it prints the item details
and manual instructions and issues no API call (its `get_sheets_service`
helper is never invoked). -/
def addEssentialsHoodieMainSteps : List Step :=
  [Step.print "ADD ESSENTIALS HOODIE TO INVENTORY", .print "Item Details:"] ++
  essentialsHoodieItem.map (fun kv => Step.print (kv.1 ++ ": " ++ kv.2)) ++
  [Step.print "MANUAL STEPS TO ADD THIS ITEM:",
   .print "1. Open your Google Sheets \x27Consolidated Inventory\x27",
   .print "2. Find the next empty row",
   .print "3. Add a new row with these values:"] ++
  essentialsHoodieItem.map (fun kv => Step.print (kv.1 ++ ": " ++ kv.2)) ++
  [Step.print "4. IMPORTANT: Make sure the UPC is exactly: 460035734583",
   .print "5. Save the sheet",
   .print "6. Refresh your sales app (reload the page)",
   .print "7. Try scanning again!",
   .print "TIPS:"]

/-! ## try/except HttpError semantics

Every main wraps its API call sequence in a single `try` whose
`except HttpError` clause prints an error message and falls off the end of
main (never retrying or re-raising; a later `except Exception` clause is
not reached for an HttpError).  `execBody` runs a step sequence in which
the `failAt`-th API call (0-based) raises HttpError: it returns the steps
that actually executed and whether an exception escaped the body.
`runTryExcept` adds the handler semantics. -/

def execBody : List Step → Nat → List Step × Bool
  | [], _ => ([], false)
  | Step.print m :: rest, n =>
      let r := execBody rest n
      (Step.print m :: r.1, r.2)
  | Step.api c :: rest, n =>
      match n with
      | 0 => ([Step.api c], true)
      | Nat.succ k =>
          let r := execBody rest k
          (Step.api c :: r.1, r.2)

/-- Run a script body under the scripts' `try/except HttpError` structure:
if an HttpError escapes the body, the handler prints an error message and
the exception stops there (second component: whether the script re-raises,
always false). -/
def runTryExcept (body : List Step) (failAt : Nat) : List Step × Bool :=
  let r := execBody body failAt
  if r.2 then (r.1 ++ [Step.print "Error"], false) else (r.1, false)

/-! ## Spreadsheet-ID extraction

Five scripts share, verbatim, the input-parsing branch

    if 'docs.google.com/spreadsheets' in user_input:
        parts = user_input.split('/d/')
        if len(parts) > 1:
            spreadsheet_id = parts[1].split('/')[0]
        else:
            ... error exit ...
    else:
        spreadsheet_id = user_input

`containsSub` is Python's substring test and `splitOnL` is Python's
`str.split` with a non-empty separator (leftmost, non-overlapping), both on
character lists.  `splitGo` carries fuel bounded by the list length so that
the definitions stay structurally recursive and computable. -/

/-- Substring occurrence test: Python's `sep in s`. -/
def containsSub (sep : List Char) : List Char → Bool
  | [] => sep.isEmpty
  | c :: rest => sep.isPrefixOf (c :: rest) || containsSub sep rest

/-- Worker for `splitOnL`: scan left to right, cutting at each leftmost
occurrence of `sep` and resuming after it.  `fuel` only bounds recursion and
never runs out when it starts at the list length. -/
def splitGo (sep : List Char) : Nat → List Char → List Char → List (List Char)
  | _, acc, [] => [acc.reverse]
  | 0, acc, rest => [acc.reverse ++ rest]
  | Nat.succ fuel, acc, c :: rest =>
      if sep.isPrefixOf (c :: rest) then
        acc.reverse :: splitGo sep fuel [] (rest.drop (sep.length - 1))
      else splitGo sep fuel (c :: acc) rest

/-- Python's `s.split(sep)` for a non-empty separator. -/
def splitOnL (sep xs : List Char) : List (List Char) :=
  splitGo sep xs.length [] xs

/-- The spreadsheet-ID extraction shared by the scripts' main functions:
`some` of the extracted id, or `none` on the error exit for a URL-like input
with no "/d/" segment. -/
def extractSpreadsheetId (userInput : String) : Option String :=
  if containsSub "docs.google.com/spreadsheets".toList userInput.toList then
    match splitOnL "/d/".toList userInput.toList with
    | _ :: p1 :: _ => some (String.mk ((splitOnL ['/'] p1).headD []))
    | _ => none
  else some userInput

/-! ## Theorems -/

/-- C1: for every inventory row whose Category, Brand, Size and Color cells
are non-empty, the Item ID installed by the configuration scripts is the
concatenation of category, brand, size, color and the row number joined by
"-" separators in that order: the formula written to Inventory!A2 by
create_resale_sheet.py (and migrate_to_consolidated.py) computes it, and the
Apps Script printed by create_inventory_form.py computes the same string. -/
theorem c1_item_id_concatenation (c d e f : String) (row : Nat)
    (hc : c ≠ "") (hd : d ≠ "") (he : e ≠ "") (hf : f ≠ "") :
    itemIdFormula c d e f row =
      c ++ "-" ++ d ++ "-" ++ e ++ "-" ++ f ++ "-" ++ toString row ∧
    appsScriptItemId c d e f row = itemIdFormula c d e f row := by
  simp [itemIdFormula, appsScriptItemId, hc, hd, he, hf]

/-- Witness for C1 at a concrete row. -/
theorem c1_witness :
    itemIdFormula "Hoodie" "Essentials" "XL" "Oatmeal" 2 =
      "Hoodie" ++ "-" ++ "Essentials" ++ "-" ++ "XL" ++ "-" ++ "Oatmeal" ++ "-" ++ toString 2 ∧
    appsScriptItemId "Hoodie" "Essentials" "XL" "Oatmeal" 2 =
      itemIdFormula "Hoodie" "Essentials" "XL" "Oatmeal" 2 :=
  c1_item_id_concatenation "Hoodie" "Essentials" "XL" "Oatmeal" 2
    (by decide) (by decide) (by decide) (by decide)

/-- C9: the Item ID formula produces the empty string whenever any one of the
four source cells Category, Brand, Size, Color is empty, and produces a
(necessarily non-empty) concatenated Item ID exactly when all four are
non-empty. -/
theorem c9_item_id_empty_guard (c d e f : String) (row : Nat) :
    ((c = "" ∨ d = "" ∨ e = "" ∨ f = "") → itemIdFormula c d e f row = "") ∧
    (itemIdFormula c d e f row ≠ "" ↔ (c ≠ "" ∧ d ≠ "" ∧ e ≠ "" ∧ f ≠ "")) := by
  constructor
  · intro h
    rcases h with h | h | h | h <;> simp [itemIdFormula, h]
  · constructor
    · intro hne
      by_cases hcond : c ≠ "" ∧ d ≠ "" ∧ e ≠ "" ∧ f ≠ ""
      · exact hcond
      · exact absurd (by simp [itemIdFormula, hcond]) hne
    · rintro ⟨hc, hd, he, hf⟩
      have hif : itemIdFormula c d e f row =
          c ++ "-" ++ d ++ "-" ++ e ++ "-" ++ f ++ "-" ++ toString row := by
        simp [itemIdFormula, hc, hd, he, hf]
      rw [hif]
      intro heq
      have hlen := congrArg String.length heq
      simp only [String.length_append] at hlen
      have hone : ("-" : String).length = 1 := rfl
      have hzero : ("" : String).length = 0 := rfl
      rw [hone, hzero] at hlen
      omega

/-- Witness for C9: an empty Color cell yields an empty Item ID, and a fully
populated row yields a non-empty one. -/
theorem c9_witness :
    itemIdFormula "Hoodie" "Nike" "M" "" 5 = "" ∧
    itemIdFormula "Hoodie" "Nike" "M" "Red" 5 ≠ "" :=
  ⟨(c9_item_id_empty_guard "Hoodie" "Nike" "M" "" 5).1 (by simp),
   (c9_item_id_empty_guard "Hoodie" "Nike" "M" "Red" 5).2.mpr
     ⟨by decide, by decide, by decide, by decide⟩⟩

/-- C2: the Status formula maps an empty Item ID to the empty string, and
otherwise yields "Sold" exactly when the Item ID occurs at least once in
column A of the Sales tab and "In Stock" otherwise. -/
theorem c2_status_derivation (itemId : String) (salesColA : List String) :
    statusFormula "" salesColA = "" ∧
    (itemId ≠ "" →
      ((statusFormula itemId salesColA = "Sold" ↔ itemId ∈ salesColA) ∧
       (statusFormula itemId salesColA = "In Stock" ↔ itemId ∉ salesColA))) := by
  refine ⟨by simp [statusFormula], fun h => ?_⟩
  have hcount : countIf salesColA itemId > 0 ↔ itemId ∈ salesColA := by
    rw [countIf, ← List.countP_eq_length_filter]
    have : salesColA.countP (fun x => x == itemId) = salesColA.count itemId := rfl
    rw [this]
    exact List.count_pos_iff
  by_cases hm : itemId ∈ salesColA
  · simp [statusFormula, h, hcount.mpr hm, hm]
  · have hz : ¬ countIf salesColA itemId > 0 := fun hp => hm (hcount.mp hp)
    simp [statusFormula, h, hz, hm]

/-- Witness for C2 at a concrete Item ID and Sales column. -/
theorem c2_witness :
    (statusFormula "Hoodie-Nike-M-Red-2" ["Tee-Gap-S-Blue-3", "Hoodie-Nike-M-Red-2"] = "Sold" ↔
      ("Hoodie-Nike-M-Red-2" : String) ∈ ["Tee-Gap-S-Blue-3", "Hoodie-Nike-M-Red-2"]) ∧
    (statusFormula "Hoodie-Nike-M-Red-2" ["Tee-Gap-S-Blue-3", "Hoodie-Nike-M-Red-2"] = "In Stock" ↔
      ("Hoodie-Nike-M-Red-2" : String) ∉ ["Tee-Gap-S-Blue-3", "Hoodie-Nike-M-Red-2"]) :=
  (c2_status_derivation "Hoodie-Nike-M-Red-2" ["Tee-Gap-S-Blue-3", "Hoodie-Nike-M-Red-2"]).2
    (by decide)

/-- Reading any cell of the padded Purchases row equals reading it from the
original row, with "" for missing cells. -/
theorem padded_getD (row : List String) (i : Nat) :
    (row ++ List.replicate (10 - row.length) "").getD i "" = row.getD i "" := by
  rcases Nat.lt_or_ge i row.length with h | h
  · exact List.getD_append row _ "" i h
  · rw [List.getD_append_right row _ "" i h]
    rw [List.getD_eq_getElem?_getD, List.getD_eq_getElem?_getD]
    rw [List.getElem?_eq_none h, List.getElem?_replicate]
    by_cases hlt : i - row.length < 10 - row.length <;> simp [hlt]

/-- The padded Purchases row has at least 10 cells. -/
theorem padded_length (row : List String) :
    10 ≤ (row ++ List.replicate (10 - row.length) "").length := by
  simp only [List.length_append, List.length_replicate]
  omega

/-- C5: the migration maps each Purchases data row to a 12-column Inventory
row whose columns 1..9 are the Purchases columns 1..9 ("" when missing),
whose Status and Location columns are empty, and whose Notes column is
Purchases column 10 ("" when absent); exactly `rows.map migrateRow` of the
same length as the read rows is written to Inventory!A2. -/
theorem c5_migration_mapping (rows : List (List String)) (row : List String)
    (hne : rows ≠ []) :
    (rows.map migrateRow).length = rows.length ∧
    (migrateRow row).length = 12 ∧
    (∀ i, i < 9 → (migrateRow row).getD i "" = row.getD i "") ∧
    (migrateRow row).getD 9 "" = "" ∧
    (migrateRow row).getD 10 "" = "" ∧
    (migrateRow row).getD 11 "" = row.getD 9 "" ∧
    ApiCall.valuesUpdate "Inventory!A2" "RAW" (rows.map migrateRow) ∈
      migrateSpreadsheetCalls true true rows := by
  have hp := padded_length row
  have htake : ((row ++ List.replicate (10 - row.length) "").take 9).length = 9 := by
    simp only [List.length_take]
    omega
  refine ⟨List.length_map _ _, ?_, ?_, ?_, ?_, ?_, ?_⟩
  · simp only [migrateRow, List.length_append, htake]
    rfl
  · intro i hi
    rw [migrateRow]
    rw [List.getD_append _ _ "" i (by rw [htake]; exact hi)]
    rw [List.getD_eq_getElem?_getD, List.getElem?_take, if_pos hi,
      ← List.getD_eq_getElem?_getD]
    exact padded_getD row i
  · rw [migrateRow, List.getD_append_right _ _ "" 9 (by rw [htake])]
    rw [htake]
    rfl
  · rw [migrateRow, List.getD_append_right _ _ "" 10 (by rw [htake]; omega)]
    rw [htake]
    rfl
  · rw [migrateRow, List.getD_append_right _ _ "" 11 (by rw [htake]; omega)]
    rw [htake]
    have h9 : (row ++ List.replicate (10 - row.length) "").length > 9 := by omega
    simp only [if_pos h9]
    show (row ++ List.replicate (10 - row.length) "").getD 9 "" = row.getD 9 ""
    exact padded_getD row 9
  · have hempty : rows.isEmpty = false := by
      cases rows with
      | nil => exact absurd rfl hne
      | cons a l => rfl
    simp [migrateSpreadsheetCalls, hempty]

/-- Witness for C5 on a concrete short Purchases row. -/
theorem c5_witness :
    ((([["U1", "Hoodie", "Nike"]].map migrateRow).length = ([["U1", "Hoodie", "Nike"]] : List (List String)).length) ∧
      (migrateRow ["U1", "Hoodie", "Nike"]).length = 12) ∧
    migrateRow ["U1", "Hoodie", "Nike"] =
      ["U1", "Hoodie", "Nike", "", "", "", "", "", "", "", "", ""] := by
  have h := c5_migration_mapping [["U1", "Hoodie", "Nike"]] ["U1", "Hoodie", "Nike"]
    (by decide)
  exact ⟨⟨h.1, h.2.1⟩, by decide⟩

/-- C7: the destructive scripts issue no API call at all unless the operator's
answer, stripped and lowercased, is "yes" or "y"; for every other answer the
main returns having issued nothing. -/
theorem c7_confirmation_gate (answer : String) (hasPurchases hasInventory : Bool)
    (rows : List (List String)) (oldFilterIds : List Nat)
    (hyes : lowerChars (stripChars answer.toList) ≠ "yes".toList)
    (hy : lowerChars (stripChars answer.toList) ≠ "y".toList) :
    apiCallsOf (migrateMainSteps answer hasPurchases hasInventory rows) = [] ∧
    apiCallsOf (removeConditionMainSteps answer hasInventory oldFilterIds) = [] := by
  have hacc : confirmAccepted answer = false := by
    simp only [confirmAccepted, Bool.or_eq_false_iff, beq_eq_false_iff_ne, ne_eq]
    exact ⟨hyes, hy⟩
  simp [migrateMainSteps, removeConditionMainSteps, hacc, apiCallsOf]

/-- Witness for C7: the answer "no" issues no API call. -/
theorem c7_witness :
    apiCallsOf (migrateMainSteps "no" true true [["U1"]]) = [] ∧
    apiCallsOf (removeConditionMainSteps "no" true [1, 2, 3]) = [] :=
  c7_confirmation_gate "no" true true [["U1"]] [1, 2, 3] (by decide) (by decide)

/-- C6 counterexample: add_essentials_hoodie.py's main runs (it prints) but
issues no Google API call at all, refuting the claim that every script in the
repository issues at least one remote API call when run. -/
theorem c6_counterexample :
    apiCallsOf addEssentialsHoodieMainSteps = [] ∧
    addEssentialsHoodieMainSteps ≠ [] := by
  constructor
  · rfl
  · simp [addEssentialsHoodieMainSteps]

/-- C6 amended: six of the seven scripts issue at least one Google API call
in their main sequences (on every control-flow branch), but
add_essentials_hoodie.py issues none: its main only prints the item details
and manual instructions. -/
theorem c6_amended (hasP hasI hasS : Bool) (rows : List (List String))
    (ids : List Nat) :
    apiCallsOf addEssentialsHoodieMainSteps = [] ∧
    createResaleSheetCalls ≠ [] ∧
    migrateSpreadsheetCalls hasP hasI rows ≠ [] ∧
    addInventoryFiltersCalls hasI ≠ [] ∧
    addItemIdDropdownCalls hasS hasI ≠ [] ∧
    removeConditionCalls hasI ids ≠ [] ∧
    createInventoryFormCalls ≠ [] := by
  refine ⟨rfl, by simp [createResaleSheetCalls], ?_, ?_, ?_, ?_,
    by simp [createInventoryFormCalls]⟩
  · simp [migrateSpreadsheetCalls]
  · simp [addInventoryFiltersCalls]
  · simp [addItemIdDropdownCalls]
  · simp [removeConditionCalls]

/-- C4 counterexample: add_inventory_filters.py targets criteria column
index 7 in both of its criteria-bearing filter views, but every "Status"
header the scripts write lands at index 8 (create_resale_sheet.py's layout,
and the layout left after remove_condition_column.py deletes column index 8)
or index 9 (migrate_to_consolidated.py's layout); 7 matches none of them,
refuting the claim that every filter-creating script targets the column in
which the scripts write the "Status" header. -/
theorem c4_counterexample :
    addInventoryFiltersViews.filterMap filterCriteriaCol = [7, 7] ∧
    inventoryHeaders.indexOf "Status" = 8 ∧
    migrateInventoryHeaders.indexOf "Status" = 9 ∧
    (migrateInventoryHeaders.eraseIdx 8).indexOf "Status" = 8 ∧
    (7 : Nat) ∉ [inventoryHeaders.indexOf "Status",
      migrateInventoryHeaders.indexOf "Status",
      (migrateInventoryHeaders.eraseIdx 8).indexOf "Status"] := by
  decide

/-- C4 amended: each of the three filter-creating scripts creates exactly
three saved filter views — "In Stock" hiding "Sold", "Sold" hiding
"In Stock", "All Statuses" hiding nothing.  In create_resale_sheet.py and
remove_condition_column.py the criteria column equals the index at which the
corresponding layout carries the "Status" header; add_inventory_filters.py
instead targets index 7, one left of any Status header the scripts write. -/
theorem c4_amended :
    createResaleFilterViews =
      [SheetsRequest.addFilterView "In Stock" 0 11
        (some (inventoryHeaders.indexOf "Status", ["Sold"])),
       .addFilterView "Sold" 0 11 (some (inventoryHeaders.indexOf "Status", ["In Stock"])),
       .addFilterView "All Statuses" 0 11 none] ∧
    ApiCall.batchUpdate createResaleFilterViews ∈ createResaleSheetCalls ∧
    removeConditionFilterViews =
      [SheetsRequest.addFilterView "In Stock" 0 11
        (some ((migrateInventoryHeaders.eraseIdx 8).indexOf "Status", ["Sold"])),
       .addFilterView "Sold" 0 11
        (some ((migrateInventoryHeaders.eraseIdx 8).indexOf "Status", ["In Stock"])),
       .addFilterView "All Statuses" 0 11 none] ∧
    ApiCall.batchUpdate removeConditionFilterViews ∈ removeConditionCalls true [] ∧
    addInventoryFiltersViews =
      [SheetsRequest.addFilterView "In Stock" 0 9 (some (7, ["Sold"])),
       .addFilterView "Sold" 0 9 (some (7, ["In Stock"])),
       .addFilterView "All Statuses" 0 9 none] ∧
    ApiCall.batchUpdate addInventoryFiltersViews ∈ addInventoryFiltersCalls true ∧
    (7 : Nat) ≠ inventoryHeaders.indexOf "Status" ∧
    (7 : Nat) ≠ migrateInventoryHeaders.indexOf "Status" ∧
    (7 : Nat) ≠ (migrateInventoryHeaders.eraseIdx 8).indexOf "Status" := by
  refine ⟨by decide, ?_, by decide, ?_, by decide, ?_, by decide, by decide, by decide⟩
  · simp [createResaleSheetCalls]
  · simp [removeConditionCalls]
  · simp [addInventoryFiltersCalls]

/-- C3 counterexample: neither the script that creates the Shipping Dashboard
nor the migration script issues any protection request, so no script makes
the tab read-only (non-editable by the operator), refuting that part of the
claim. -/
theorem c3_counterexample :
    createResaleSheetCalls.any addsProtection = false ∧
    (migrateSpreadsheetCalls true true [["X1", "Hoodie"]]).any addsProtection = false := by
  decide

/-- C3 amended: the Shipping Dashboard is populated by the lookup-formula
join as claimed — one row per non-empty Sales row carrying the sale's Item
ID, the Category/Brand/Size/Color of the first Inventory row with that Item
ID ("" on lookup failure), and the sale's Buyer, Platform, Sale Price,
Shipping Status and Tracking Number — but the scripts issue no protection
request for it: the tab is read-only only by convention. -/
theorem c3_amended (inventory sales : List (List String)) (sale : List String)
    (hmem : sale ∈ sales) (hne : sale.getD 0 "" ≠ "") :
    dashboardRow inventory sale ∈ shippingDashboardRows inventory sales ∧
    (shippingDashboardRows inventory sales).length =
      (sales.filter (fun r => r.getD 0 "" != "")).length ∧
    (dashboardRow inventory sale).getD 0 "" = sale.getD 0 "" ∧
    (∀ r, inventory.find? (fun q => q.getD 0 "" == sale.getD 0 "") = some r →
      dashboardRow inventory sale =
        [sale.getD 0 "", r.getD 2 "", r.getD 3 "", r.getD 4 "", r.getD 5 "",
         sale.getD 4 "", sale.getD 5 "", sale.getD 1 "", sale.getD 6 "", sale.getD 7 ""]) ∧
    (inventory.find? (fun q => q.getD 0 "" == sale.getD 0 "") = none →
      dashboardRow inventory sale =
        [sale.getD 0 "", "", "", "", "",
         sale.getD 4 "", sale.getD 5 "", sale.getD 1 "", sale.getD 6 "", sale.getD 7 ""]) ∧
    (∀ (hasP hasI : Bool) (rows : List (List String)),
      (createResaleSheetCalls ++ migrateSpreadsheetCalls hasP hasI rows).any
        addsProtection = false) := by
  refine ⟨?_, ?_, rfl, ?_, ?_, ?_⟩
  · apply List.mem_map_of_mem
    rw [List.mem_filter]
    exact ⟨hmem, by simpa using hne⟩
  · simp [shippingDashboardRows]
  · intro r hr
    simp only [dashboardRow, iferrorVlookup, hr]
  · intro hr
    simp only [dashboardRow, iferrorVlookup, hr]
  · intro hasP hasI rows
    rw [List.any_append]
    have h1 : createResaleSheetCalls.any addsProtection = false := by decide
    rw [h1]
    cases hasP <;> cases hasI <;> by_cases hrows : rows.isEmpty <;>
      simp [migrateSpreadsheetCalls, addsProtection, hrows, migrateValidationRequests]

/-- Witness for C3 amended on a concrete inventory and sale. -/
theorem c3_witness :
    dashboardRow [["H-N-M-R-2", "U1", "Hoodie", "Nike", "M", "Red"]]
        ["H-N-M-R-2", "50", "2024-01-01", "Zach", "Ann", "eBay", "shipped", "T1"] ∈
      shippingDashboardRows [["H-N-M-R-2", "U1", "Hoodie", "Nike", "M", "Red"]]
        [["H-N-M-R-2", "50", "2024-01-01", "Zach", "Ann", "eBay", "shipped", "T1"]] :=
  (c3_amended [["H-N-M-R-2", "U1", "Hoodie", "Nike", "M", "Red"]]
    [["H-N-M-R-2", "50", "2024-01-01", "Zach", "Ann", "eBay", "shipped", "T1"]]
    ["H-N-M-R-2", "50", "2024-01-01", "Zach", "Ann", "eBay", "shipped", "T1"]
    (by decide) (by decide)).1

/-- Running a body whose k-th API call raises: the exception escapes the body
and exactly the first k+1 API calls were issued. -/
theorem execBody_fail (body : List Step) :
    ∀ k, k < (apiCallsOf body).length →
      (execBody body k).2 = true ∧
      apiCallsOf (execBody body k).1 = (apiCallsOf body).take (k + 1) := by
  induction body with
  | nil => intro k hk; simp [apiCallsOf] at hk
  | cons s rest ih =>
    intro k hk
    cases s with
    | print m =>
      have h := ih k (by simpa [apiCallsOf] using hk)
      simpa [execBody, apiCallsOf] using h
    | api c =>
      cases k with
      | zero => simp [execBody, apiCallsOf]
      | succ j =>
        have hj : j < (apiCallsOf rest).length := by
          simpa [apiCallsOf] using hk
        have h := ih j hj
        simpa [execBody, apiCallsOf] using h

/-- C8: for every script's main API sequence, if the k-th Google API call
raises an HttpError then the script issues exactly the calls up to and
including the failing one, prints an error message as its last step, and
does not re-raise: the single except HttpError clause prints and falls off
the end of main. -/
theorem c8_http_error_handling (hasP hasI hasS : Bool) (rows : List (List String))
    (ids : List Nat) (body : List Step) (k : Nat)
    (hbody : body ∈ [createResaleSheetSteps,
                     (migrateSpreadsheetCalls hasP hasI rows).map Step.api,
                     (addInventoryFiltersCalls hasI).map Step.api,
                     (addItemIdDropdownCalls hasS hasI).map Step.api,
                     (removeConditionCalls hasI ids).map Step.api,
                     createInventoryFormCalls.map Step.api,
                     addEssentialsHoodieMainSteps])
    (hk : k < (apiCallsOf body).length) :
    apiCallsOf (runTryExcept body k).1 = (apiCallsOf body).take (k + 1) ∧
    (runTryExcept body k).2 = false ∧
    (runTryExcept body k).1.getLast? = some (Step.print "Error") := by
  have h := execBody_fail body k hk
  have hrun : runTryExcept body k = ((execBody body k).1 ++ [Step.print "Error"], false) := by
    simp [runTryExcept, h.1]
  rw [hrun]
  refine ⟨?_, rfl, List.getLast?_concat _⟩
  simpa [apiCallsOf] using h.2

/-- Witness for C8: create_resale_sheet.py failing at its very first API
call issues only that call, ends with the error print, and does not
re-raise. -/
theorem c8_witness :
    apiCallsOf (runTryExcept createResaleSheetSteps 0).1 =
      (apiCallsOf createResaleSheetSteps).take 1 ∧
    (runTryExcept createResaleSheetSteps 0).2 = false ∧
    (runTryExcept createResaleSheetSteps 0).1.getLast? = some (Step.print "Error") :=
  c8_http_error_handling true true true [] [] createResaleSheetSteps 0
    (List.mem_cons_self _ _) (by decide)

/-! ### Lemmas about `containsSub` and `splitOnL` -/

theorem isPrefixOf_append_self (p rest : List Char) : p.isPrefixOf (p ++ rest) = true := by
  induction p with
  | nil => simp
  | cons c p ih =>
    rw [List.cons_append, List.isPrefixOf_cons₂, ih]
    simp

theorem isPrefixOf_append_of_le (p : List Char) :
    ∀ u v : List Char, p.length ≤ u.length → p.isPrefixOf (u ++ v) = p.isPrefixOf u := by
  induction p with
  | nil => intro u v _; simp
  | cons c p ih =>
    intro u v h
    cases u with
    | nil => simp at h
    | cons b u =>
      rw [List.cons_append, List.isPrefixOf_cons₂, List.isPrefixOf_cons₂,
        ih u v (by simpa using h)]

theorem containsSub_eq_false_of_head_not_mem (c0 : Char) (st : List Char) :
    ∀ xs : List Char, c0 ∉ xs → containsSub (c0 :: st) xs = false := by
  intro xs
  induction xs with
  | nil => intro _; rfl
  | cons c rest ih =>
    intro h
    have hc : (c0 == c) = false := by
      simp only [beq_eq_false_iff_ne, ne_eq]
      intro hh
      exact h (hh ▸ List.mem_cons_self c0 rest)
    simp [containsSub, List.isPrefixOf, hc,
      ih (fun hm => h (List.mem_cons_of_mem c hm))]

theorem containsSub_of_isPrefixOf (sep xs : List Char)
    (h : sep.isPrefixOf xs = true) : containsSub sep xs = true := by
  cases xs with
  | nil =>
    cases sep with
    | nil => rfl
    | cons c s => simp [List.isPrefixOf] at h
  | cons c rest => simp [containsSub, h]

theorem containsSub_append_right (sep a b : List Char)
    (h : containsSub sep b = true) : containsSub sep (a ++ b) = true := by
  induction a with
  | nil => simpa using h
  | cons c a ih => simp [containsSub, ih]

theorem splitGo_nil (sep : List Char) (fuel : Nat) (acc : List Char) :
    splitGo sep fuel acc [] = [acc.reverse] := by
  cases fuel <;> rfl

theorem splitGo_cons (sep : List Char) (fuel : Nat) (acc : List Char)
    (c : Char) (rest : List Char) :
    splitGo sep (fuel + 1) acc (c :: rest) =
      if sep.isPrefixOf (c :: rest) then
        acc.reverse :: splitGo sep fuel [] (rest.drop (sep.length - 1))
      else splitGo sep fuel (c :: acc) rest := rfl

theorem splitGo_fuel_irrel (sep : List Char) :
    ∀ fuel₁ fuel₂ acc xs, xs.length ≤ fuel₁ → xs.length ≤ fuel₂ →
      splitGo sep fuel₁ acc xs = splitGo sep fuel₂ acc xs := by
  intro fuel₁
  induction fuel₁ with
  | zero =>
    intro fuel₂ acc xs h1 _
    have hx : xs = [] := List.length_eq_zero.mp (Nat.le_zero.mp h1)
    subst hx
    rw [splitGo_nil, splitGo_nil]
  | succ f ih =>
    intro fuel₂ acc xs h1 h2
    cases xs with
    | nil => rw [splitGo_nil, splitGo_nil]
    | cons c rest =>
      cases fuel₂ with
      | zero => simp at h2
      | succ f₂ =>
        rw [splitGo_cons, splitGo_cons]
        by_cases hp : sep.isPrefixOf (c :: rest) = true
        · rw [if_pos hp, if_pos hp]
          have hd : (rest.drop (sep.length - 1)).length ≤ rest.length := by
            rw [List.length_drop]; omega
          have hr : rest.length ≤ f := by simpa using h1
          have hr₂ : rest.length ≤ f₂ := by simpa using h2
          rw [ih f₂ [] _ (le_trans hd hr) (le_trans hd hr₂)]
        · rw [if_neg hp, if_neg hp]
          exact ih f₂ (c :: acc) rest (by simpa using h1) (by simpa using h2)

theorem splitGo_no_occurrence (sep : List Char) :
    ∀ fuel acc xs, containsSub sep xs = false → xs.length ≤ fuel →
      splitGo sep fuel acc xs = [acc.reverse ++ xs] := by
  intro fuel
  induction fuel with
  | zero =>
    intro acc xs h hl
    have hx : xs = [] := List.length_eq_zero.mp (Nat.le_zero.mp hl)
    subst hx
    rw [splitGo_nil]
    simp
  | succ f ih =>
    intro acc xs h hl
    cases xs with
    | nil => rw [splitGo_nil]; simp
    | cons c rest =>
      have h' : sep.isPrefixOf (c :: rest) = false ∧ containsSub sep rest = false := by
        simpa [containsSub] using h
      rw [splitGo_cons, if_neg (by simp [h'.1])]
      rw [ih (c :: acc) rest h'.2 (by simpa using hl)]
      simp

theorem splitGo_first_occurrence (sep : List Char) (hsep : sep ≠ []) :
    ∀ (a : List Char) (b acc : List Char) (fuel fuelb : Nat),
      containsSub sep (a ++ sep.dropLast) = false →
      (a ++ sep ++ b).length ≤ fuel → b.length ≤ fuelb →
      splitGo sep fuel acc (a ++ sep ++ b) = (acc.reverse ++ a) :: splitGo sep fuelb [] b := by
  have hpos : 0 < sep.length := List.length_pos.mpr hsep
  intro a
  induction a with
  | nil =>
    intro b acc fuel fuelb _ hfuel hfuelb
    obtain ⟨s0, st, hs⟩ : ∃ s0 st, sep = s0 :: st := by
      cases sep with
      | nil => exact absurd rfl hsep
      | cons s0 st => exact ⟨s0, st, rfl⟩
    cases fuel with
    | zero =>
      rw [hs] at hfuel
      simp [List.length_append] at hfuel
    | succ f =>
      have hcons : ([] : List Char) ++ sep ++ b = s0 :: (st ++ b) := by
        rw [hs]; rfl
      rw [hcons, splitGo_cons]
      have hpre : sep.isPrefixOf (s0 :: (st ++ b)) = true := by
        have := isPrefixOf_append_self sep b
        rw [hs] at this ⊢
        simpa using this
      rw [if_pos hpre]
      have hdrop : (st ++ b).drop (sep.length - 1) = b := by
        rw [hs]
        simpa using List.drop_left st b
      rw [hdrop]
      have hf : b.length ≤ f := by
        rw [hs] at hfuel
        simp [List.length_append] at hfuel
        omega
      rw [splitGo_fuel_irrel sep f fuelb [] b hf hfuelb]
      simp
  | cons c a' ih =>
    intro b acc fuel fuelb hocc hfuel hfuelb
    have hocc' : sep.isPrefixOf (c :: (a' ++ sep.dropLast)) = false ∧
        containsSub sep (a' ++ sep.dropLast) = false := by
      simpa [containsSub] using hocc
    cases fuel with
    | zero => simp [List.length_append] at hfuel
    | succ f =>
      have hcons : (c :: a') ++ sep ++ b = c :: (a' ++ sep ++ b) := rfl
      rw [hcons, splitGo_cons]
      have hpre : sep.isPrefixOf (c :: (a' ++ sep ++ b)) = false := by
        have hglast : sep.dropLast ++ [sep.getLast hsep] = sep :=
          List.dropLast_append_getLast hsep
        have hre : c :: (a' ++ sep ++ b)
            = (c :: (a' ++ sep.dropLast)) ++ ([sep.getLast hsep] ++ b) := by
          conv_lhs => rw [← hglast]
          simp [List.append_assoc]
        rw [hre, isPrefixOf_append_of_le sep _ _ ?hlen]
        · exact hocc'.1
        case hlen =>
          simp only [List.length_cons, List.length_append, List.length_dropLast]
          omega
      rw [if_neg (by simp only [hpre]; exact Bool.false_ne_true)]
      have hlen' : (a' ++ sep ++ b).length ≤ f := by
        simp only [List.length_append] at hfuel ⊢
        simp at hfuel
        omega
      rw [ih b (c :: acc) f fuelb hocc'.2 hlen' hfuelb]
      simp

theorem splitOnL_split (sep a b : List Char) (hsep : sep ≠ [])
    (hocc : containsSub sep (a ++ sep.dropLast) = false)
    (hb : containsSub sep b = false) :
    splitOnL sep (a ++ sep ++ b) = [a, b] := by
  rw [splitOnL]
  rw [splitGo_first_occurrence sep hsep a b [] _ b.length hocc (le_refl _) (le_refl _)]
  rw [splitGo_no_occurrence sep b.length [] b hb (le_refl _)]
  simp

/-- C10: the spreadsheet-ID extraction is a left inverse of the URL the
scripts print: for every id containing neither '/' nor the substring
"docs.google.com/spreadsheets", parsing the printed URL
"https://docs.google.com/spreadsheets/d/" ++ id yields exactly id, and
parsing a bare id yields the id itself. -/
theorem c10_spreadsheet_id_extraction (id : String)
    (h1 : '/' ∉ id.toList)
    (h2 : containsSub "docs.google.com/spreadsheets".toList id.toList = false) :
    extractSpreadsheetId ("https://docs.google.com/spreadsheets/d/" ++ id) = some id ∧
    extractSpreadsheetId id = some id := by
  constructor
  · have hdata : ("https://docs.google.com/spreadsheets/d/" ++ id).toList
        = ("https://docs.google.com/spreadsheets".toList ++ "/d/".toList) ++ id.toList := by
      show ("https://docs.google.com/spreadsheets/d/" ++ id).data = _
      rw [String.data_append]
      have hconst : ("https://docs.google.com/spreadsheets/d/" : String).data
          = "https://docs.google.com/spreadsheets".data ++ "/d/".data := by decide
      rw [hconst, List.append_assoc]
      rfl
    have hsepd : ("/d/" : String).toList = '/' :: "d/".toList := by decide
    have hbfalse : containsSub "/d/".toList id.toList = false := by
      rw [hsepd]
      exact containsSub_eq_false_of_head_not_mem '/' "d/".toList id.toList h1
    have hcontains : containsSub "docs.google.com/spreadsheets".toList
        ("https://docs.google.com/spreadsheets/d/" ++ id).toList = true := by
      rw [hdata]
      have hsplit2 : ("https://docs.google.com/spreadsheets".toList ++ "/d/".toList)
            ++ id.toList
          = "https://".toList ++
            ("docs.google.com/spreadsheets".toList ++ ("/d/".toList ++ id.toList)) := by
        rw [show ("https://docs.google.com/spreadsheets" : String).toList
            = "https://".toList ++ "docs.google.com/spreadsheets".toList from by decide]
        simp [List.append_assoc]
      rw [hsplit2]
      apply containsSub_append_right
      apply containsSub_of_isPrefixOf
      exact isPrefixOf_append_self _ _
    have hsplit : splitOnL "/d/".toList
          ("https://docs.google.com/spreadsheets/d/" ++ id).toList
        = ["https://docs.google.com/spreadsheets".toList, id.toList] := by
      rw [hdata]
      exact splitOnL_split "/d/".toList "https://docs.google.com/spreadsheets".toList
        id.toList (by decide) (by decide) hbfalse
    have hinner : splitOnL ['/'] id.toList = [id.toList] := by
      rw [splitOnL]
      rw [splitGo_no_occurrence ['/'] id.toList.length [] id.toList
        (containsSub_eq_false_of_head_not_mem '/' [] id.toList h1) (le_refl _)]
      rfl
    simp only [extractSpreadsheetId, hcontains, if_true, hsplit, hinner]
    show some (String.mk id.data) = some id
    rfl
  · simp only [extractSpreadsheetId, h2]
    rfl

/-- Witness for C10 at a concrete spreadsheet id. -/
theorem c10_witness :
    extractSpreadsheetId ("https://docs.google.com/spreadsheets/d/" ++ "abc123XYZ") =
      some "abc123XYZ" ∧
    extractSpreadsheetId "abc123XYZ" = some "abc123XYZ" :=
  c10_spreadsheet_id_extraction "abc123XYZ" (by decide) (by decide)

end SJSneakerz
